import Mathlib

/-!
Shallow embedding of `src/main.py` of the customer-service-chatbot CLI.

The program is sequential glue around an external session service and agent
runner.  We embed it as a pure interpreter: every call into the external
session service is answered by an oracle value (`GetResult`), and every
observable action of the program (print, session lookup, session creation,
history update, agent invocation) is recorded in an event trace.  Python
dicts are association lists preserving insertion order; the aliasing
behaviour of `dict.copy()` followed by item assignment (lines 54-56 and
82-83 of `main.py`) is modelled on a small explicit heap.
-/

set_option autoImplicit false

namespace ChatbotMain

/-- Values stored in a session state map: strings or (possibly nested) lists,
covering the three seeded keys of `initial_state_template`. -/
inductive Val where
  | str : String → Val
  | vlist : List Val → Val

/-- A Python dict as an insertion-ordered association list. -/
abbrev Dict := List (String × Val)

/-- `d[k]` lookup: first binding of key `k`, if any. -/
def dictLookup : Dict → String → Option Val
  | [], _ => none
  | (k2, v) :: rest, k => if k2 = k then some v else dictLookup rest k

/-- Python `d.get(k, dflt)`. -/
def dictGet (d : Dict) (k : String) (dflt : Val) : Val :=
  match dictLookup d k with
  | some v => v
  | none => dflt

/-- Python `d[k] = v`: replace the first binding of `k` in place, else append. -/
def dictSet : Dict → String → Val → Dict
  | [], k, v => [(k, v)]
  | (k2, v2) :: rest, k, v =>
      if k2 = k then (k2, v) :: rest else (k2, v2) :: dictSet rest k v

/-- `initial_state_template` (main.py lines 20-24). -/
def initial_state_template : Dict :=
  [("user_name", Val.str ""),
   ("purchased_courses", Val.vlist []),
   ("interaction_history", Val.vlist [])]

/-- Characters stripped by Python `str.strip()`: exactly the code points on
which CPython's `str.isspace` is true (ASCII whitespace, the separator
controls U+001C-U+001F, NEL, NBSP, and the Unicode space, line and
paragraph separators). -/
def pyIsSpace (c : Char) : Bool :=
  (0x09 ≤ c.toNat && c.toNat ≤ 0x0d) ||
  (0x1c ≤ c.toNat && c.toNat ≤ 0x20) ||
  c.toNat = 0x85 || c.toNat = 0xa0 || c.toNat = 0x1680 ||
  (0x2000 ≤ c.toNat && c.toNat ≤ 0x200a) ||
  c.toNat = 0x2028 || c.toNat = 0x2029 || c.toNat = 0x202f ||
  c.toNat = 0x205f || c.toNat = 0x3000

/-- Python `s.strip()`: remove leading and trailing whitespace. -/
def pyStrip (s : String) : String :=
  ⟨((s.data.dropWhile pyIsSpace).reverse.dropWhile pyIsSpace).reverse⟩

/-- ASCII lowercasing of one character, as Python `str.lower` acts on ASCII. -/
def asciiLower (c : Char) : Char :=
  if 'A' ≤ c ∧ c ≤ 'Z' then Char.ofNat (c.toNat + 32) else c

/-- Python `s.lower()` restricted to ASCII case mapping. -/
def pyLower (s : String) : String :=
  ⟨s.data.map asciiLower⟩

/-- The loop's exit test: `user_input.lower() in ["exit", "quit"]` (line 114). -/
def isExitInput (s : String) : Bool :=
  pyLower s = "exit" || pyLower s = "quit"

/-- Lines 29-34: empty or all-whitespace name becomes "Guest", any other
name is stripped of surrounding whitespace. -/
def computeUserId (nameInput : String) : String :=
  if pyStrip nameInput = "" then "Guest" else pyStrip nameInput

/-- `APP_NAME` (line 37). -/
def APP_NAME : String := "Customer Support"

/-- Line 40: `SESSION_ID = f"{USER_ID}_main_session"` (deterministic). -/
def sessionIdFor (uid : String) : String := uid ++ "_main_session"

/-- A heap of Python dict objects, addressed by allocation index, used to
model aliasing of `initial_state_template` against its `.copy()`. -/
abbrev Heap := List Dict

/-- `d.copy()`: allocate a fresh dict holding the same bindings. -/
def heapCopy (h : Heap) (src : Nat) : Heap × Nat :=
  (h ++ [h.getD src []], h.length)

/-- `d[k] = v` on the heap object at address `r`. -/
def heapSet (h : Heap) (r : Nat) (k : String) (v : Val) : Heap :=
  h.set r (dictSet (h.getD r []) k v)

/-- Lines 54-56 (and 82-83): copy the template, then set `user_name`.
Returns the updated heap and the address of the fresh per-user state. -/
def prepareUserState (h : Heap) (tmpl : Nat) (uid : String) : Heap × Nat :=
  let c := heapCopy h tmpl
  (heapSet c.1 c.2 "user_name" (Val.str uid), c.2)

/-- The per-user initial state actually passed to `create_session`: the
result of `prepareUserState` run on a heap holding the module-level
template. -/
def userInitialState (uid : String) : Dict :=
  let p := prepareUserState [initial_state_template] 0 uid
  p.1.getD p.2 []

/-- A session as returned by the session service: identified by
(app name, user id, session id) with an opaque state map. -/
structure Session where
  appName : String
  userId : String
  id : String
  state : Dict

/-- Oracle answer for one `get_session` call: a found session's state,
`SessionNotFoundError`, or any other exception (with its message). -/
inductive GetResult where
  | found : Dict → GetResult
  | notFound : GetResult
  | otherError : String → GetResult

/-- Observable actions of the program, in order of occurrence. -/
inductive Event where
  | printed : String → Event
  | welcomed : Val → Event
  | prompted : Val → Event
  | printedPair : String → Val → Event
  | getSessionCall : String → String → String → Event
  | createSessionCall : String → String → String → Dict → Event
  | historyAdd : String → String → String → String → Event
  | agentCall : String → String → String → Event

/-- Result of the session-establishment phase (main.py lines 27-90). -/
structure EstabResult where
  userId : String
  sessionId : String
  session : Session
  events : List Event

/-- Lines 27-90: derive USER_ID and SESSION_ID from the entered name,
attempt `get_session`, and handle the three outcomes: found (welcome
back), `SessionNotFoundError` (create under the same identifiers), any
other exception (fall back to a `Guest_Error_`-prefixed guest session).
`errSuffix` is the generated suffix of line 74/78. -/
def establish (nameInput : String) (firstGet : GetResult) (errSuffix : String) :
    EstabResult :=
  let uid := computeUserId nameInput
  let sid := sessionIdFor uid
  match firstGet with
  | GetResult.found st =>
      { userId := uid, sessionId := sid,
        session := { appName := APP_NAME, userId := uid, id := sid, state := st },
        events := [Event.getSessionCall APP_NAME uid sid,
                   Event.welcomed (dictGet st "user_name" (Val.str uid))] }
  | GetResult.notFound =>
      let st := userInitialState uid
      { userId := uid, sessionId := sid,
        session := { appName := APP_NAME, userId := uid, id := sid, state := st },
        events := [Event.getSessionCall APP_NAME uid sid,
                   Event.printed ("Welcome, " ++ uid ++ "! Creating new session..."),
                   Event.createSessionCall APP_NAME uid sid st,
                   Event.printed ("New session created: " ++ sid)] }
  | GetResult.otherError msg =>
      let guestId := "Guest_Error_" ++ errSuffix
      let gsid := sessionIdFor guestId
      let st := userInitialState guestId
      { userId := guestId, sessionId := gsid,
        session := { appName := APP_NAME, userId := guestId, id := gsid, state := st },
        events := [Event.getSessionCall APP_NAME uid sid,
                   Event.printed ("An unexpected error occurred during session handling: " ++ msg),
                   Event.printed "Proceeding with a temporary guest session due to error.",
                   Event.createSessionCall APP_NAME guestId gsid st,
                   Event.printed ("Error fallback session created: " ++ gsid)] }

/-- One scripted loop iteration: the line typed at the prompt and, when the
turn reaches the refresh, the session service's answer to it. -/
structure LoopTurn where
  input : String
  refresh : GetResult

/-- How the conversation loop ended: `exit`/`quit` input, a failed mid-loop
refresh, or the finite script running out while the loop awaits input. -/
inductive LoopEnd where
  | exited : LoopEnd
  | refreshFailed : LoopEnd
  | outOfInput : LoopEnd
  deriving DecidableEq, Repr

/-- Result of the conversation loop: the session bound to `current_session`
when the loop stopped, how it stopped, and its event trace. -/
structure LoopResult where
  finalSession : Session
  ending : LoopEnd
  events : List Event

/-- Lines 108-143: each iteration prompts with the session state's
`user_name` (falling back to USER_ID), breaks on `exit`/`quit`, otherwise
records the query in history, calls the agent, then refreshes the session;
a refresh exception breaks the loop, leaving `current_session` at its
previous value. -/
def runLoop (uid : String) : Session → List LoopTurn → LoopResult
  | sess, [] =>
      { finalSession := sess, ending := LoopEnd.outOfInput, events := [] }
  | sess, t :: rest =>
      let pv := dictGet sess.state "user_name" (Val.str uid)
      if isExitInput t.input then
        { finalSession := sess, ending := LoopEnd.exited,
          events := [Event.prompted pv,
                     Event.printed "Ending conversation. Goodbye!"] }
      else
        let pre := [Event.prompted pv,
                    Event.historyAdd APP_NAME uid sess.id t.input,
                    Event.agentCall uid sess.id t.input,
                    Event.getSessionCall APP_NAME uid sess.id]
        match t.refresh with
        | GetResult.found st =>
            let s2 : Session :=
              { appName := APP_NAME, userId := uid, id := sess.id, state := st }
            let r := runLoop uid s2 rest
            { finalSession := r.finalSession, ending := r.ending,
              events := pre ++ r.events }
        | GetResult.notFound =>
            { finalSession := sess, ending := LoopEnd.refreshFailed,
              events := pre ++
                [Event.printed "Error: Session lost during interaction. Exiting."] }
        | GetResult.otherError msg =>
            { finalSession := sess, ending := LoopEnd.refreshFailed,
              events := pre ++
                [Event.printed ("Error refreshing session state: " ++ msg ++ ". Exiting.")] }

/-- Lines 145-161: fetch the loop's last session once more and print every
key-value pair of its state; on `SessionNotFoundError` or any other
exception print an error message instead. -/
def finalDump (uid : String) (sess : Session) (finalGet : GetResult) : List Event :=
  match finalGet with
  | GetResult.found st =>
      Event.getSessionCall APP_NAME uid sess.id ::
      Event.printed "Final Session State:" ::
      st.map (fun kv => Event.printedPair kv.1 kv.2)
  | GetResult.notFound =>
      [Event.getSessionCall APP_NAME uid sess.id,
       Event.printed ("Could not retrieve final session state for " ++ sess.id ++
         ". It might have been deleted or an error occurred.")]
  | GetResult.otherError msg =>
      [Event.getSessionCall APP_NAME uid sess.id,
       Event.printed ("Error retrieving final session state: " ++ msg)]

/-- The oracle inputs of one whole run of `main_async`. -/
structure ProgramInput where
  nameInput : String
  firstGet : GetResult
  errSuffix : String
  turns : List LoopTurn
  finalGet : GetResult

/-- One whole run of `main_async`: establishment, conversation loop, and —
when the loop actually ended rather than awaiting more input — the final
state dump. -/
def runProgram (inp : ProgramInput) : List Event :=
  let e := establish inp.nameInput inp.firstGet inp.errSuffix
  let l := runLoop e.userId e.session inp.turns
  e.events ++ l.events ++
    (if l.ending = LoopEnd.outOfInput then []
     else finalDump e.userId l.finalSession inp.finalGet)


/-! ### Helper lemmas shared across the claim theorems -/

/-- The per-user state passed to `create_session`: the template's three keys
with `user_name` overwritten by the user id. -/
theorem userInitialState_eq (uid : String) :
    userInitialState uid =
      [("user_name", Val.str uid),
       ("purchased_courses", Val.vlist []),
       ("interaction_history", Val.vlist [])] := rfl

/-- `pyStrip` yields the empty string exactly when every character of the
input is whitespace. -/
theorem pyStrip_eq_empty_iff (s : String) :
    pyStrip s = "" ↔ s.data.all pyIsSpace = true := by
  constructor
  · intro h
    have h2 : ((s.data.dropWhile pyIsSpace).reverse.dropWhile pyIsSpace).reverse
        = ([] : List Char) := congrArg String.data h
    rw [List.reverse_eq_nil_iff, List.dropWhile_eq_nil_iff] at h2
    rw [List.all_eq_true]
    intro x hx
    rw [← List.takeWhile_append_dropWhile pyIsSpace s.data, List.mem_append] at hx
    rcases hx with hx | hx
    · exact List.mem_takeWhile_imp hx
    · exact h2 x (List.mem_reverse.mpr hx)
  · intro h
    have hnil : s.data.dropWhile pyIsSpace = [] :=
      List.dropWhile_eq_nil_iff.mpr (fun x hx => List.all_eq_true.mp h x hx)
    rw [pyStrip, hnil]
    rfl

/-! ### Claim theorems -/

/-- C1: when the deterministic session id is not yet known to the session
service (the lookup raises `SessionNotFoundError`), the first run creates a
session whose state map holds exactly the three default keys: `user_name`
set to the user id, `purchased_courses` and `interaction_history` both the
empty list. -/
theorem c1_first_run_seeds_default_state (nameInput errSuffix : String) :
    (establish nameInput GetResult.notFound errSuffix).session.state =
      [("user_name", Val.str (computeUserId nameInput)),
       ("purchased_courses", Val.vlist []),
       ("interaction_history", Val.vlist [])] ∧
    Event.createSessionCall APP_NAME (computeUserId nameInput)
        (sessionIdFor (computeUserId nameInput))
        [("user_name", Val.str (computeUserId nameInput)),
         ("purchased_courses", Val.vlist []),
         ("interaction_history", Val.vlist [])] ∈
      (establish nameInput GetResult.notFound errSuffix).events := by
  refine ⟨userInitialState_eq _, ?_⟩
  simp [establish, userInitialState_eq]

/-- C2: the session id used for lookup and creation is the user id followed
by `_main_session`; every run's first session-service call is `get_session`
on that same (app name, user id, session id) triple, and a second run that
finds the session reloads the same session id the first run created. -/
theorem c2_deterministic_session_id (nameInput errSuffix1 errSuffix2 : String)
    (g : GetResult) (st : Dict) :
    (establish nameInput g errSuffix1).events.head? =
      some (Event.getSessionCall APP_NAME (computeUserId nameInput)
        (computeUserId nameInput ++ "_main_session")) ∧
    (establish nameInput (GetResult.found st) errSuffix2).session.id =
      (establish nameInput GetResult.notFound errSuffix1).session.id := by
  cases g <;> simp [establish, sessionIdFor]

/-- C3: in any loop iteration whose input lowercases to `exit` or `quit`
(any mixture of case), the loop ends immediately: the iteration's trace is
just the prompt and the goodbye message, with no agent call and no history
update after that input, and the remaining script is never consumed. -/
theorem c3_exit_terminates_loop (uid : String) (sess : Session) (t : LoopTurn)
    (rest : List LoopTurn) (h : isExitInput t.input = true) :
    (runLoop uid sess (t :: rest)).ending = LoopEnd.exited ∧
    (runLoop uid sess (t :: rest)).events =
      [Event.prompted (dictGet sess.state "user_name" (Val.str uid)),
       Event.printed "Ending conversation. Goodbye!"] ∧
    (∀ u s q, Event.agentCall u s q ∉ (runLoop uid sess (t :: rest)).events) ∧
    (∀ a u s q, Event.historyAdd a u s q ∉ (runLoop uid sess (t :: rest)).events) := by
  simp [runLoop, h]

/-- Witness for C3 at the mixed-case input `ExIt`. -/
theorem c3_exit_terminates_loop_witness :
    (runLoop "Bob"
      { appName := APP_NAME, userId := "Bob", id := "Bob_main_session",
        state := initial_state_template }
      [{ input := "ExIt", refresh := GetResult.notFound }]).ending = LoopEnd.exited :=
  (c3_exit_terminates_loop "Bob"
    { appName := APP_NAME, userId := "Bob", id := "Bob_main_session",
      state := initial_state_template }
    { input := "ExIt", refresh := GetResult.notFound } [] rfl).1

/-- C4: when the initial lookup raises an exception other than
`SessionNotFoundError`, the run falls back to a guest whose user id is
`Guest_Error_` followed by the generated suffix, creating a session seeded
with the three default keys and `user_name` set to that guest id. -/
theorem c4_guest_error_fallback (nameInput errSuffix msg : String) :
    (establish nameInput (GetResult.otherError msg) errSuffix).userId =
      "Guest_Error_" ++ errSuffix ∧
    (establish nameInput (GetResult.otherError msg) errSuffix).session.userId =
      "Guest_Error_" ++ errSuffix ∧
    (establish nameInput (GetResult.otherError msg) errSuffix).session.state =
      [("user_name", Val.str ("Guest_Error_" ++ errSuffix)),
       ("purchased_courses", Val.vlist []),
       ("interaction_history", Val.vlist [])] ∧
    Event.createSessionCall APP_NAME ("Guest_Error_" ++ errSuffix)
        (sessionIdFor ("Guest_Error_" ++ errSuffix))
        [("user_name", Val.str ("Guest_Error_" ++ errSuffix)),
         ("purchased_courses", Val.vlist []),
         ("interaction_history", Val.vlist [])] ∈
      (establish nameInput (GetResult.otherError msg) errSuffix).events := by
  refine ⟨rfl, rfl, userInitialState_eq _, ?_⟩
  simp [establish, userInitialState_eq]

/-- C5: when the initial lookup raises `SessionNotFoundError`, the run
creates a new session under the same app name, user id and deterministic
session id that the lookup used, keeping all identifiers unchanged. -/
theorem c5_notfound_creates_same_identifiers (nameInput errSuffix : String) :
    (establish nameInput GetResult.notFound errSuffix).events.head? =
      some (Event.getSessionCall APP_NAME (computeUserId nameInput)
        (sessionIdFor (computeUserId nameInput))) ∧
    Event.createSessionCall APP_NAME (computeUserId nameInput)
        (sessionIdFor (computeUserId nameInput))
        (userInitialState (computeUserId nameInput)) ∈
      (establish nameInput GetResult.notFound errSuffix).events ∧
    (establish nameInput GetResult.notFound errSuffix).userId =
      computeUserId nameInput ∧
    (establish nameInput GetResult.notFound errSuffix).session.id =
      sessionIdFor (computeUserId nameInput) := by
  refine ⟨rfl, ?_, rfl, rfl⟩
  simp [establish]

/-- C6: a failed mid-loop session refresh — `SessionNotFoundError` or any
other exception — ends the loop right after one error message, with no
retry of the lookup, no session created anywhere in the loop, and
`current_session` left at its previous value. -/
theorem c6_refresh_failure_unrecoverable (uid : String) (sess : Session)
    (t : LoopTurn) (rest : List LoopTurn) (hex : isExitInput t.input = false)
    (hf : t.refresh = GetResult.notFound ∨
          ∃ m, t.refresh = GetResult.otherError m) :
    (runLoop uid sess (t :: rest)).ending = LoopEnd.refreshFailed ∧
    (∃ emsg, (runLoop uid sess (t :: rest)).events =
      [Event.prompted (dictGet sess.state "user_name" (Val.str uid)),
       Event.historyAdd APP_NAME uid sess.id t.input,
       Event.agentCall uid sess.id t.input,
       Event.getSessionCall APP_NAME uid sess.id,
       Event.printed emsg]) ∧
    (∀ a u s st, Event.createSessionCall a u s st ∉
      (runLoop uid sess (t :: rest)).events) ∧
    (runLoop uid sess (t :: rest)).finalSession = sess := by
  rcases hf with h | ⟨m, h⟩
  · exact ⟨by simp [runLoop, hex, h],
      ⟨"Error: Session lost during interaction. Exiting.", by simp [runLoop, hex, h]⟩,
      by simp [runLoop, hex, h], by simp [runLoop, hex, h]⟩
  · exact ⟨by simp [runLoop, hex, h],
      ⟨"Error refreshing session state: " ++ m ++ ". Exiting.",
        by simp [runLoop, hex, h]⟩,
      by simp [runLoop, hex, h], by simp [runLoop, hex, h]⟩

/-- Witness for C6: a refresh failure on the first turn ends the loop. -/
theorem c6_refresh_failure_unrecoverable_witness :
    (runLoop "Bob"
      { appName := APP_NAME, userId := "Bob", id := "Bob_main_session",
        state := initial_state_template }
      [{ input := "hello", refresh := GetResult.notFound }]).ending =
      LoopEnd.refreshFailed :=
  (c6_refresh_failure_unrecoverable "Bob"
    { appName := APP_NAME, userId := "Bob", id := "Bob_main_session",
      state := initial_state_template }
    { input := "hello", refresh := GetResult.notFound } [] rfl (Or.inl rfl)).1

/-- The conversation loop never emits a key-value dump line: `printedPair`
events come only from the final state dump. -/
theorem runLoop_no_printedPair (uid : String) (sess : Session)
    (ts : List LoopTurn) (k : String) (v : Val) :
    Event.printedPair k v ∉ (runLoop uid sess ts).events := by
  induction ts generalizing sess with
  | nil => simp [runLoop]
  | cons t rest ih =>
    by_cases he : isExitInput t.input
    · simp [runLoop, he]
    · cases hr : t.refresh
      · simp [runLoop, he, hr]
        exact ih _
      · simp [runLoop, he, hr]
      · simp [runLoop, he, hr]

/-- Session establishment never emits a key-value dump line either. -/
theorem establish_no_printedPair (nameInput errSuffix : String) (g : GetResult)
    (k : String) (v : Val) :
    Event.printedPair k v ∉ (establish nameInput g errSuffix).events := by
  cases g <;> simp [establish]

/-- C7: once the loop has ended, the program fetches the loop's last
session once more; on success it prints the header and one line per
key-value pair of the fetched state, and every one of those dump events
appears in the whole-program trace; on failure it prints an error message
and no key-value pair is ever printed anywhere in the run. -/
theorem c7_final_state_dump (uid : String) (sess : Session) (g : GetResult)
    (st : Dict) (inp : ProgramInput)
    (hend : (runLoop (establish inp.nameInput inp.firstGet inp.errSuffix).userId
        (establish inp.nameInput inp.firstGet inp.errSuffix).session
        inp.turns).ending ≠ LoopEnd.outOfInput) :
    (g = GetResult.found st →
      finalDump uid sess g =
        Event.getSessionCall APP_NAME uid sess.id ::
        Event.printed "Final Session State:" ::
        st.map (fun kv => Event.printedPair kv.1 kv.2)) ∧
    ((g = GetResult.notFound ∨ ∃ m, g = GetResult.otherError m) →
      (∃ emsg, finalDump uid sess g =
        [Event.getSessionCall APP_NAME uid sess.id, Event.printed emsg]) ∧
      ∀ k v, Event.printedPair k v ∉ finalDump uid sess g) ∧
    (∀ e ∈ finalDump (establish inp.nameInput inp.firstGet inp.errSuffix).userId
        (runLoop (establish inp.nameInput inp.firstGet inp.errSuffix).userId
          (establish inp.nameInput inp.firstGet inp.errSuffix).session
          inp.turns).finalSession inp.finalGet,
      e ∈ runProgram inp) ∧
    ((inp.finalGet = GetResult.notFound ∨
        ∃ m, inp.finalGet = GetResult.otherError m) →
      ∀ k v, Event.printedPair k v ∉ runProgram inp) := by
  refine ⟨?_, ?_, ?_, ?_⟩
  · intro hg; rw [hg]; rfl
  · rintro (hg | ⟨m, hg⟩)
    · exact ⟨⟨"Could not retrieve final session state for " ++ sess.id ++
        ". It might have been deleted or an error occurred.",
        by rw [hg]; rfl⟩, by rw [hg]; simp [finalDump]⟩
    · exact ⟨⟨"Error retrieving final session state: " ++ m, by rw [hg]; rfl⟩,
        by rw [hg]; simp [finalDump]⟩
  · intro e he
    rw [runProgram]
    simp only [if_neg hend, List.mem_append]
    exact Or.inr he
  · rintro hg k v hmem
    rw [runProgram] at hmem
    simp only [if_neg hend, List.mem_append] at hmem
    rcases hmem with (hm | hm) | hm
    · exact establish_no_printedPair _ _ _ _ _ hm
    · exact runLoop_no_printedPair _ _ _ _ _ hm
    · rcases hg with hg | ⟨m, hg⟩
      · rw [hg] at hm; simp [finalDump] at hm
      · rw [hg] at hm; simp [finalDump] at hm

/-- Witness for C7: a run that exits on its only turn and whose final fetch
succeeds has the dump's pair line for `user_name` in its trace. -/
theorem c7_final_state_dump_witness :
    Event.printedPair "user_name" (Val.str "Bob") ∈
      runProgram
        { nameInput := "Bob", firstGet := GetResult.notFound, errSuffix := "x",
          turns := [{ input := "exit", refresh := GetResult.notFound }],
          finalGet := GetResult.found [("user_name", Val.str "Bob")] } :=
  (c7_final_state_dump "Bob"
    { appName := APP_NAME, userId := "Bob", id := "Bob_main_session",
      state := [("user_name", Val.str "Bob")] }
    (GetResult.found [("user_name", Val.str "Bob")])
    [("user_name", Val.str "Bob")]
    { nameInput := "Bob", firstGet := GetResult.notFound, errSuffix := "x",
      turns := [{ input := "exit", refresh := GetResult.notFound }],
      finalGet := GetResult.found [("user_name", Val.str "Bob")] }
    (by simp [establish, runLoop, show isExitInput "exit" = true from rfl])).2.2.1
    (Event.printedPair "user_name" (Val.str "Bob"))
    (by simp [establish, runLoop, finalDump,
      show isExitInput "exit" = true from rfl])

/-- C8: a name input that is empty or all whitespace yields the user id
`Guest`; any other input yields the input with surrounding whitespace
stripped (which is then nonempty). -/
theorem c8_name_defaults_to_guest (s : String) :
    (s.data.all pyIsSpace = true → computeUserId s = "Guest") ∧
    (s.data.all pyIsSpace = false →
      computeUserId s = pyStrip s ∧ pyStrip s ≠ "") := by
  constructor
  · intro h
    rw [computeUserId, if_pos ((pyStrip_eq_empty_iff s).mpr h)]
  · intro h
    have hne : pyStrip s ≠ "" := by
      intro hc
      rw [(pyStrip_eq_empty_iff s).mp hc] at h
      cases h
    exact ⟨by rw [computeUserId, if_neg hne], hne⟩

/-- Witness for C8: whitespace-only and surrounded-name inputs. -/
theorem c8_name_defaults_to_guest_witness :
    computeUserId "   " = "Guest" ∧ computeUserId "  Ada  " = "Ada" := by
  refine ⟨(c8_name_defaults_to_guest "   ").1 (by decide), ?_⟩
  rw [((c8_name_defaults_to_guest "  Ada  ").2 (by decide)).1]
  rfl

/-- C9: preparing a per-user initial state copies the template and mutates
only the copy: on any heap the template's dict is unchanged, and in
particular after running the creation steps on the module-level
`initial_state_template` it still maps `user_name` to the empty string. -/
theorem c9_template_not_mutated (h : Heap) (tmpl : Nat) (uid : String)
    (hlt : tmpl < h.length) :
    (prepareUserState h tmpl uid).1.getD tmpl [] = h.getD tmpl [] ∧
    dictLookup ((prepareUserState [initial_state_template] 0 uid).1.getD 0 [])
      "user_name" = some (Val.str "") := by
  refine ⟨?_, rfl⟩
  show (heapSet (h ++ [h.getD tmpl []]) h.length "user_name"
      (Val.str uid)).getD tmpl [] = h.getD tmpl []
  rw [heapSet, List.getD_eq_getElem?_getD, List.getD_eq_getElem?_getD,
    List.getElem?_set_ne (Nat.ne_of_gt hlt), List.getElem?_append]
  rw [if_pos hlt]

/-- Witness for C9 on a singleton heap holding the template. -/
theorem c9_template_not_mutated_witness :
    (prepareUserState [initial_state_template] 0 "Ada").1.getD 0 [] =
      [initial_state_template].getD 0 [] :=
  (c9_template_not_mutated [initial_state_template] 0 "Ada" (by decide)).1

/-- C10: each loop iteration prompts with the session state's `user_name`
value when the key is present and with USER_ID when it is absent, and the
welcome-back message of a found session displays the same fallback
computed from the entered name's USER_ID. -/
theorem c10_display_name_fallback (uid : String) (sess : Session)
    (t : LoopTurn) (rest : List LoopTurn) (st : Dict)
    (nameInput errSuffix : String) (v : Val) :
    (runLoop uid sess (t :: rest)).events.head? =
      some (Event.prompted (dictGet sess.state "user_name" (Val.str uid))) ∧
    (dictLookup sess.state "user_name" = none →
      dictGet sess.state "user_name" (Val.str uid) = Val.str uid) ∧
    (dictLookup sess.state "user_name" = some v →
      dictGet sess.state "user_name" (Val.str uid) = v) ∧
    (establish nameInput (GetResult.found st) errSuffix).events.getLast? =
      some (Event.welcomed
        (dictGet st "user_name" (Val.str (computeUserId nameInput)))) := by
  refine ⟨?_, ?_, ?_, ?_⟩
  · by_cases he : isExitInput t.input
    · simp [runLoop, he]
    · cases hr : t.refresh
      · simp [runLoop, he, hr]
      · simp [runLoop, he, hr]
      · simp [runLoop, he, hr]
  · intro h
    rw [dictGet, h]
  · intro h
    rw [dictGet, h]
  · rfl

/-- Witness for C10: a session state without `user_name` falls back to the
user id. -/
theorem c10_display_name_fallback_witness :
    dictGet [] "user_name" (Val.str "Ada") = Val.str "Ada" :=
  (c10_display_name_fallback "Ada"
    { appName := APP_NAME, userId := "Ada", id := "Ada_main_session",
      state := [] }
    { input := "hi", refresh := GetResult.notFound } [] [] "Ada" "x"
    (Val.str "")).2.1 rfl

end ChatbotMain
